import Mathlib

/-!
Shallow embedding of the pocket-claude backend's two core subsystems:
the asynchronous task subsystem (`app/services/task_service.py`) and the
git OAuth connection subsystem (`app/services/git_service.py`,
`app/core/encryption.py`).  Time is modelled as seconds since an epoch
(`Nat`); the source's `datetime` arithmetic maps to `Nat` arithmetic
(truncated subtraction agrees with the source's comparisons on the
relevant branches, as noted inline).
-/

namespace PocketClaude

/-- Absolute time, in seconds since an epoch. -/
abbrev Time := Nat

/-- Exceptions of `app/core/exceptions.py` that the embedded code can raise,
plus the `cryptography.fernet.InvalidToken` error that a failed decryption
raises through the service layer. -/
inductive AppError where
  | notFound (msg : String)
  | badRequest (msg : String)
  | decryptionFailed (msg : String)
  deriving DecidableEq, Repr

/-! ## Credential vault (`app/core/encryption.py`)

The repository delegates to the external `cryptography.fernet.Fernet`
primitive.  We model that external collaborator faithfully to its contract:
encryption is randomized (the token embeds a fresh IV supplied here as an
explicit argument), decryption is the deterministic inverse on tokens
produced under the same key and rejects any other string. -/

/-- Model of the external Fernet `encrypt`: the token records the key, the
random IV and the plaintext.  Distinct IVs give distinct tokens for the
same plaintext, as in the real primitive. -/
def fernetEncrypt (key iv : Char) (plaintext : String) : String :=
  String.mk ('F' :: key :: iv :: plaintext.data)

/-- Model of the external Fernet `decrypt`: succeeds exactly on tokens
produced by `fernetEncrypt` under the same key; anything else raises
`InvalidToken`. -/
def fernetDecrypt (key : Char) (token : String) : Except String String :=
  match token.data with
  | 'F' :: k :: _ :: rest =>
      if k = key then Except.ok (String.mk rest) else Except.error "InvalidToken"
  | _ => Except.error "InvalidToken"

/-- `EncryptionService.__init__`: holds the symmetric key read from
configuration. -/
structure EncryptionService where
  key : Char
  deriving DecidableEq, Repr

/-- `EncryptionService.encrypt`: empty strings are returned as-is without
encryption; otherwise the Fernet primitive is applied (the `iv` argument
stands for the primitive's internal fresh randomness). -/
def EncryptionService.encrypt (svc : EncryptionService) (iv : Char) (plaintext : String) : String :=
  if plaintext = "" then "" else fernetEncrypt svc.key iv plaintext

/-- `EncryptionService.decrypt`: empty strings are returned as-is without
decryption; otherwise the Fernet primitive is applied and may fail with
`InvalidToken`. -/
def EncryptionService.decrypt (svc : EncryptionService) (ciphertext : String) : Except String String :=
  if ciphertext = "" then Except.ok "" else fernetDecrypt svc.key ciphertext

/-! ## Task subsystem (`app/services/task_service.py`, `app/models/task_models.py`) -/

/-- `TaskStatus` enum. -/
inductive TaskStatus where
  | pending
  | running
  | completed
  | failed
  deriving DecidableEq, Repr

/-- `TaskInfo` pydantic model. -/
structure TaskInfo where
  task_id : String
  status : TaskStatus
  message : String
  session_id : Option String := none
  project_path : Option String := none
  result : Option String := none
  error : Option String := none
  exit_code : Option Int := none
  stderr : Option String := none
  created_at : Time
  updated_at : Time
  expires_at : Time
  deriving DecidableEq, Repr

/-- The optional keyword arguments of `TaskStore.update_task`; a `none`
field means the argument was not passed (Python `None`), so the stored
value is kept. -/
structure TaskUpdate where
  status : Option TaskStatus := none
  result : Option String := none
  error : Option String := none
  exit_code : Option Int := none
  stderr : Option String := none
  session_id : Option String := none
  deriving DecidableEq, Repr

/-- `TaskStore`: in-memory dict from task id to `TaskInfo`, plus the TTL in
hours (`ttl_hours`, default 1).  The dict is modelled as an association
list; all store methods run under the store lock, so each is one atomic
step here. -/
structure TaskStore where
  tasks : List (String × TaskInfo)
  ttl_hours : Nat
  deriving DecidableEq, Repr

/-- Dict lookup on an association list (first binding wins, as a Python
dict has unique keys). -/
def assocFind {α : Type} (k : String) : List (String × α) → Option α
  | [] => none
  | (k', v) :: rest => if k' = k then some v else assocFind k rest

/-- Dict update-in-place on an association list. -/
def assocSet {α : Type} (k : String) (v : α) : List (String × α) → List (String × α)
  | [] => []
  | (k', v') :: rest => if k' = k then (k', v) :: rest else (k', v') :: assocSet k v rest

/-- `TaskStore.create_task` (the fresh `uuid4` id is an explicit argument):
status `pending`, `created_at = updated_at = now`,
`expires_at = now + ttl_hours` hours. -/
def TaskStore.create_task (store : TaskStore) (task_id : String) (message : String)
    (session_id project_path : Option String) (now : Time) : TaskStore × TaskInfo :=
  let task : TaskInfo :=
    { task_id := task_id
      status := TaskStatus.pending
      message := message
      session_id := session_id
      project_path := project_path
      created_at := now
      updated_at := now
      expires_at := now + 3600 * store.ttl_hours }
  ({ store with tasks := store.tasks ++ [(task_id, task)] }, task)

/-- `TaskStore.get_task`: raises `NotFoundException` if absent. -/
def TaskStore.get_task (store : TaskStore) (task_id : String) : Except AppError TaskInfo :=
  match assocFind task_id store.tasks with
  | none => Except.error (AppError.notFound ("Task not found: " ++ task_id))
  | some task => Except.ok task

/-- Whether a status is terminal, i.e. in `(TaskStatus.COMPLETED, TaskStatus.FAILED)`. -/
def isTerminal (s : TaskStatus) : Bool :=
  s = TaskStatus.completed || s = TaskStatus.failed

/-- The field merge performed by `TaskStore.update_task` on the stored
task: each argument overwrites its field only when not `None`;
`updated_at` is always refreshed; `expires_at` is pushed to
`now + TTL` exactly when the *argument* `status` is terminal. -/
def applyTaskUpdate (task : TaskInfo) (u : TaskUpdate) (now : Time) (ttl_hours : Nat) : TaskInfo :=
  { task with
    status := u.status.getD task.status
    result := u.result.or task.result
    error := u.error.or task.error
    exit_code := u.exit_code.or task.exit_code
    stderr := u.stderr.or task.stderr
    session_id := u.session_id.or task.session_id
    updated_at := now
    expires_at :=
      match u.status with
      | some TaskStatus.completed => now + 3600 * ttl_hours
      | some TaskStatus.failed => now + 3600 * ttl_hours
      | _ => task.expires_at }

/-- `TaskStore.update_task`: raises `NotFoundException` if the id is
absent, otherwise merges the non-`None` fields and returns the updated
task.  No transition validation is performed on `status`. -/
def TaskStore.update_task (store : TaskStore) (task_id : String) (u : TaskUpdate)
    (now : Time) : Except AppError (TaskStore × TaskInfo) :=
  match assocFind task_id store.tasks with
  | none => Except.error (AppError.notFound ("Task not found: " ++ task_id))
  | some task =>
      let task' := applyTaskUpdate task u now store.ttl_hours
      Except.ok ({ store with tasks := assocSet task_id task' store.tasks }, task')

/-- `TaskStore.cleanup_expired`: under the lock, collect every task whose
status is in `(COMPLETED, FAILED)` and whose `expires_at < now`, delete
them, and return the count removed. -/
def TaskStore.cleanup_expired (store : TaskStore) (now : Time) : TaskStore × Nat :=
  let keep := store.tasks.filter fun p => !(isTerminal p.2.status && decide (p.2.expires_at < now))
  ({ store with tasks := keep }, store.tasks.length - keep.length)

/-! ## Task executor (`TaskExecutor.execute_task`) -/

/-- The tuple returned by the external CLI-wrapper collaborator
`ClaudeService.execute_chat`: `(response, session_id, exit_code, stderr)`. -/
structure ChatResult where
  response : String
  session_id : Option String
  exit_code : Int
  stderr : String
  deriving DecidableEq, Repr

/-- `TaskExecutor.execute_task`.  The collaborator's behaviour is the
explicit `outcome` argument: `Except.error msg` models `execute_chat`
raising an exception whose string form is `msg`.  `now₁`/`now₂` are the
clock readings at the running-update and at the terminal update.  The
`get_task` call and the running-update sit outside the `try` block, so
their `NotFoundException` escapes; the terminal updates happen inside
(success path) or in the `except` handler (failure path). -/
def TaskExecutor.execute_task (store : TaskStore) (task_id : String)
    (outcome : Except String ChatResult) (now₁ now₂ : Time) : Except AppError TaskStore :=
  match store.get_task task_id with
  | Except.error e => Except.error e
  | Except.ok _task =>
      match store.update_task task_id { status := some TaskStatus.running } now₁ with
      | Except.error e => Except.error e
      | Except.ok (store₁, _) =>
          match outcome with
          | Except.ok r =>
              (store₁.update_task task_id
                { status := some TaskStatus.completed
                  result := some r.response
                  session_id := r.session_id
                  exit_code := some r.exit_code
                  stderr := some r.stderr } now₂).map Prod.fst
          | Except.error e =>
              (store₁.update_task task_id
                { status := some TaskStatus.failed
                  error := some e } now₂).map Prod.fst

/-! ## Git service (`app/services/git_service.py`) -/

/-- `GitProvider` enum. -/
inductive GitProvider where
  | github
  | gitlab
  | gitea
  deriving DecidableEq, Repr

/-- `config["scopes"]` per provider (`GitProviderConfig`). -/
def providerScopes : GitProvider → List String
  | GitProvider.github => ["repo", "user:email"]
  | GitProvider.gitlab => ["api", "read_user", "read_repository", "write_repository"]
  | GitProvider.gitea => ["read:user", "read:repository", "write:repository"]

/-- One entry of `GitService._oauth_states`. -/
structure OAuthStateData where
  provider : GitProvider
  instance_url : Option String
  redirect_uri : String
  created_at : Time
  deriving DecidableEq, Repr

/-- `GitConnectionDB` row (`app/models/db_models.py`), encrypted token
fields included. -/
structure GitConnectionDB where
  id : String
  provider : GitProvider
  instance_url : Option String
  username : Option String
  email : Option String
  access_token_encrypted : String
  refresh_token_encrypted : Option String
  token_expires_at : Option Time
  scopes : List String
  connected_at : Time
  last_used_at : Option Time
  is_active : Bool
  deriving DecidableEq, Repr

/-- The mutable state a `GitService` instance closes over: the in-memory
OAuth state dict, the connections table of the database, and the
encryption service. -/
structure GitServiceState where
  oauth_states : List (String × OAuthStateData)
  connections : List (String × GitConnectionDB)
  enc : EncryptionService
  deriving DecidableEq, Repr

/-- `OAUTH_STATE_EXPIRY_MINUTES`, in seconds. -/
def OAUTH_STATE_EXPIRY : Nat := 15 * 60

/-- `TOKEN_REFRESH_BUFFER_MINUTES`, in seconds. -/
def TOKEN_REFRESH_BUFFER : Nat := 10 * 60

/-- RFC 7636 charset check of `_validate_pkce_parameter`:
the regex is anchored `[A-Za-z0-9\-_~]+`, so it requires a non-empty
all-charset string. -/
def validPkce (s : String) : Bool :=
  !(s = "") && s.data.all fun c => c.isAlpha || c.isDigit || c = '-' || c = '_' || c = '~'

/-- `GitService._cleanup_expired_oauth_states`: delete every state with
`now - created_at > 15 minutes`.  (On `Nat`, truncated subtraction agrees
with the source: a state created in the future gives a non-positive
difference there and `0` here, neither exceeding the window.) -/
def cleanup_expired_oauth_states (svc : GitServiceState) (now : Time) : GitServiceState :=
  { svc with
    oauth_states := svc.oauth_states.filter fun p => !decide (now - p.2.created_at > OAUTH_STATE_EXPIRY) }

/-- Body of a provider token-endpoint response as the source reads it:
HTTP status plus the optional fields of the JSON body. -/
structure TokenResponse where
  status_code : Nat
  access_token : Option String
  refresh_token : Option String
  expires_in : Option Nat
  deriving DecidableEq, Repr

/-- Body of a provider user-endpoint response as the source reads it. -/
structure UserResponse where
  status_code : Nat
  login : Option String
  username : Option String
  email : Option String
  deriving DecidableEq, Repr

/-- `GitService.handle_oauth_callback`.  The provider's two HTTP responses
(`tokenResp`, `userResp`) and the generated `connection_id` and encryption
randomness (`iv₁`, `iv₂`) are explicit arguments.  The function returns
the service state as mutated so far together with the result, so each
`raise` path shows exactly which mutations had already happened (none:
the connection insert and the state delete are the last two steps). -/
def handle_oauth_callback (svc : GitServiceState) (provider : GitProvider)
    (_code state code_verifier redirect_uri : String)
    (tokenResp : TokenResponse) (userResp : UserResponse)
    (connection_id : String) (iv₁ iv₂ : Char) (now : Time) :
    GitServiceState × Except AppError GitConnectionDB :=
  if !validPkce code_verifier then
    (svc, Except.error (AppError.badRequest
      "code_verifier must contain only base64url characters [A-Z, a-z, 0-9, -, _, ~]"))
  else
    match assocFind state svc.oauth_states with
    | none => (svc, Except.error (AppError.notFound ("OAuth state not found: " ++ state)))
    | some st =>
        if st.provider ≠ provider then
          (svc, Except.error (AppError.badRequest "Provider mismatch"))
        else if st.redirect_uri ≠ redirect_uri then
          (svc, Except.error (AppError.badRequest "Redirect URI mismatch"))
        else if tokenResp.status_code ≠ 200 then
          (svc, Except.error (AppError.badRequest "Token exchange failed"))
        else
          let access_token := tokenResp.access_token.getD ""
          if access_token = "" then
            (svc, Except.error (AppError.badRequest "No access token in response"))
          else
            let token_expires_at : Option Time :=
              match tokenResp.expires_in with
              | some n => if n = 0 then none else some (now + n)
              | none => none
            if userResp.status_code ≠ 200 then
              (svc, Except.error (AppError.badRequest "Failed to fetch user info"))
            else
              let conn : GitConnectionDB :=
                { id := connection_id
                  provider := provider
                  instance_url := st.instance_url
                  username := userResp.login.or userResp.username
                  email := userResp.email
                  access_token_encrypted := svc.enc.encrypt iv₁ access_token
                  refresh_token_encrypted :=
                    match tokenResp.refresh_token with
                    | some r => if r = "" then none else some (svc.enc.encrypt iv₂ r)
                    | none => none
                  token_expires_at := token_expires_at
                  scopes := providerScopes provider
                  connected_at := now
                  last_used_at := none
                  is_active := true }
              ({ svc with
                  connections := svc.connections ++ [(connection_id, conn)]
                  oauth_states := svc.oauth_states.filter fun p => p.1 ≠ state },
               Except.ok conn)

/-- The environment a token refresh runs in: the provider's response to
the `grant_type=refresh_token` request and the encryption randomness for
re-encrypting the new tokens. -/
structure RefreshEnv where
  resp : TokenResponse
  iv₁ : Char
  iv₂ : Char
  deriving DecidableEq, Repr

/-- `GitService._refresh_token`: refreshes the connection's tokens from
the provider response, mutating the row (not committing).  Raises
`BadRequestException` when no refresh token is stored, when the provider
answers non-200, or when the response lacks an access token; a failing
decryption of the stored refresh token raises through as well. -/
def refresh_token_fn (enc : EncryptionService) (env : RefreshEnv)
    (conn : GitConnectionDB) (now : Time) : Except AppError GitConnectionDB :=
  match conn.refresh_token_encrypted with
  | none => Except.error (AppError.badRequest "No refresh token available for this connection")
  | some rte =>
      match enc.decrypt rte with
      | Except.error e => Except.error (AppError.decryptionFailed e)
      | Except.ok _refresh_token =>
          if env.resp.status_code ≠ 200 then
            Except.error (AppError.badRequest "Token refresh failed")
          else
            let new_access := env.resp.access_token.getD ""
            if new_access = "" then
              Except.error (AppError.badRequest "No access token in refresh response")
            else
              Except.ok { conn with
                access_token_encrypted := enc.encrypt env.iv₁ new_access
                refresh_token_encrypted :=
                  match env.resp.refresh_token with
                  | some r => if r = "" then conn.refresh_token_encrypted
                              else some (enc.encrypt env.iv₂ r)
                  | none => conn.refresh_token_encrypted
                token_expires_at :=
                  match env.resp.expires_in with
                  | some n => if n = 0 then conn.token_expires_at else some (now + n)
                  | none => conn.token_expires_at
                last_used_at := some now }

/-- `needs_refresh` as computed by `get_decrypted_token`:
`now >= token_expires_at - TOKEN_REFRESH_BUFFER` when an expiry is set,
`False` otherwise.  (On `Nat` the truncated threshold agrees with the
source: a pre-epoch threshold is `0` here and is `<= now` in both.) -/
def needsRefresh (token_expires_at : Option Time) (now : Time) : Bool :=
  match token_expires_at with
  | some e => decide (now ≥ e - TOKEN_REFRESH_BUFFER)
  | none => false

/-- `GitService.get_decrypted_token`, run to completion in isolation (the
interleaved version is modelled separately below).  Looks the connection
up, decides `needs_refresh`, refreshes under the per-connection lock when
needed *and a refresh token is stored*, wrapping any refresh failure in a
`BadRequestException`, and finally decrypts and returns the (possibly
refreshed) stored access token.  The returned state reflects the session
commit of the refreshed row. -/
def get_decrypted_token (svc : GitServiceState) (connection_id : String)
    (env : RefreshEnv) (now : Time) : GitServiceState × Except AppError String :=
  match assocFind connection_id svc.connections with
  | none => (svc, Except.error (AppError.notFound ("Connection not found: " ++ connection_id)))
  | some conn =>
      let needs := needsRefresh conn.token_expires_at now
      if needs && conn.refresh_token_encrypted.isSome then
        match refresh_token_fn svc.enc env conn now with
        | Except.error _ =>
            (svc, Except.error (AppError.badRequest
              "Failed to refresh access token for Git connection; please re-authenticate and try again."))
        | Except.ok conn' =>
            let svc' := { svc with connections := assocSet connection_id conn' svc.connections }
            match svc.enc.decrypt conn'.access_token_encrypted with
            | Except.ok t => (svc', Except.ok t)
            | Except.error e => (svc', Except.error (AppError.decryptionFailed e))
      else
        match svc.enc.decrypt conn.access_token_encrypted with
        | Except.ok t => (svc, Except.ok t)
        | Except.error e => (svc, Except.error (AppError.decryptionFailed e))

/-- `GitConnectionStatus` response model. -/
structure GitConnectionStatus where
  connection_id : String
  is_valid : Bool
  username : Option String
  scopes : List String
  last_checked : Time
  deriving DecidableEq, Repr

/-- `GitService.check_connection_status`.  `userResp` is the status code
of the authenticated user-endpoint probe, `none` meaning the HTTP call
raised (network error).  An absent connection raises `NotFoundException`;
a failure inside `get_decrypted_token` is caught and reported as an
`is_valid = false` status; a non-200 or failing probe likewise. -/
def check_connection_status (svc : GitServiceState) (connection_id : String)
    (env : RefreshEnv) (userResp : Option Nat) (now : Time) :
    GitServiceState × Except AppError GitConnectionStatus :=
  match assocFind connection_id svc.connections with
  | none => (svc, Except.error (AppError.notFound ("Connection not found: " ++ connection_id)))
  | some conn =>
      match get_decrypted_token svc connection_id env now with
      | (svc', Except.error _) =>
          (svc', Except.ok
            { connection_id := connection_id
              is_valid := false
              username := conn.username
              scopes := conn.scopes
              last_checked := now })
      | (svc', Except.ok _token) =>
          let is_valid := userResp = some 200
          let svc'' :=
            if is_valid then
              { svc' with connections :=
                  match assocFind connection_id svc'.connections with
                  | some c => assocSet connection_id { c with last_used_at := some now } svc'.connections
                  | none => svc'.connections }
            else svc'
          (svc'', Except.ok
            { connection_id := connection_id
              is_valid := is_valid
              username := conn.username
              scopes := conn.scopes
              last_checked := now })

/-! ## Interleaved refresh (`get_decrypted_token` under asyncio)

Two callers run `get_decrypted_token` for the same connection
concurrently on the asyncio event loop.  Each caller's program is the
refresh path of the source, cut at its await/yield points into atomic
steps; the shared state is the committed database row (its
`token_expires_at`), the per-connection `asyncio.Lock`, and the count of
provider refresh calls.  Crucially, in the source the `async with lock`
block is nested *inside* the `async with get_session()` block: the lock
is released when the lock block exits, while the session commit that
publishes the refreshed row happens later, when the session context
exits.  The `session.refresh` re-read under the lock sees only committed
data (the Connection Store is transactional).  Refresh calls are assumed
to succeed, returning a new expiry `newExp`. -/

/-- Program counter of one caller inside `get_decrypted_token`. -/
inductive CallerPc where
  | start      -- about to run the initial SELECT and the needs-refresh check
  | wantLock   -- refresh needed, waiting on the per-connection lock
  | locked     -- holds the lock, about to re-read and re-check
  | doRefresh  -- re-check still positive, about to call the provider
  | refreshed  -- row mutated in-session, about to exit the lock block
  | released   -- lock released, about to commit on session exit, then return
  | done       -- returned
  deriving DecidableEq, Repr

/-- Session-local state of one caller: its program counter, its session's
view of `token_expires_at`, and the uncommitted refreshed expiry. -/
structure Caller where
  pc : CallerPc
  view : Option Time
  dirty : Option Time
  deriving DecidableEq, Repr

/-- The shared system: committed `token_expires_at` of the row, the
per-connection lock (holder identity, `false` = caller A, `true` =
caller B), both callers, and the total number of provider refresh calls
issued. -/
structure RefreshSystem where
  db : Option Time
  lock : Option Bool
  a : Caller
  b : Caller
  refreshCalls : Nat
  deriving DecidableEq, Repr

/-- One atomic step of one caller (identified by `i`, with its clock
reading `now`), mirroring the statements of `get_decrypted_token`:
initial load-and-check, lock acquisition, `session.refresh` plus
re-check (when the re-read expiry is gone the previously computed
`needs_refresh`, true on this path, is kept, as in the source), the
provider call plus in-session mutation, lock release at the end of the
lock block, and the commit at session exit. -/
def stepOne (now newExp : Time) (i : Bool) (db : Option Time) (lock : Option Bool)
    (c : Caller) (calls : Nat) : Option Time × Option Bool × Caller × Nat :=
  match c.pc with
  | CallerPc.start =>
      if needsRefresh db now then (db, lock, { c with pc := CallerPc.wantLock, view := db }, calls)
      else (db, lock, { c with pc := CallerPc.done, view := db }, calls)
  | CallerPc.wantLock =>
      match lock with
      | none => (db, some i, { c with pc := CallerPc.locked }, calls)
      | some _ => (db, lock, c, calls)
  | CallerPc.locked =>
      let needs :=
        match db with
        | some e => decide (now ≥ e - TOKEN_REFRESH_BUFFER)
        | none => true
      if needs then (db, lock, { c with pc := CallerPc.doRefresh, view := db }, calls)
      else (db, lock, { c with pc := CallerPc.refreshed, view := db }, calls)
  | CallerPc.doRefresh =>
      (db, lock, { c with pc := CallerPc.refreshed, dirty := some newExp }, calls + 1)
  | CallerPc.refreshed =>
      (db, none, { c with pc := CallerPc.released }, calls)
  | CallerPc.released =>
      match c.dirty with
      | some e => (some e, lock, { c with pc := CallerPc.done }, calls)
      | none => (db, lock, { c with pc := CallerPc.done }, calls)
  | CallerPc.done => (db, lock, c, calls)

/-- One scheduler step: the event loop runs caller `i` for one atomic
step. -/
def RefreshSystem.step (nowA nowB newExp : Time) (i : Bool) (s : RefreshSystem) : RefreshSystem :=
  if i then
    let r := stepOne nowB newExp true s.db s.lock s.b s.refreshCalls
    { s with db := r.1, lock := r.2.1, b := r.2.2.1, refreshCalls := r.2.2.2 }
  else
    let r := stepOne nowA newExp false s.db s.lock s.a s.refreshCalls
    { s with db := r.1, lock := r.2.1, a := r.2.2.1, refreshCalls := r.2.2.2 }

/-- Run a schedule (a list of caller identities) from a state. -/
def runRefresh (nowA nowB newExp : Time) (sched : List Bool) (s : RefreshSystem) : RefreshSystem :=
  sched.foldl (fun s i => RefreshSystem.step nowA nowB newExp i s) s

/-- Initial system: committed expiry `e0`, lock free, both callers at the
top of `get_decrypted_token`, no provider call yet. -/
def initRefresh (e0 : Time) : RefreshSystem :=
  { db := some e0
    lock := none
    a := { pc := CallerPc.start, view := none, dirty := none }
    b := { pc := CallerPc.start, view := none, dirty := none }
    refreshCalls := 0 }

/-- A caller is inside the lock-protected critical section (between
acquiring and releasing the per-connection lock); the provider refresh
call happens only there. -/
def holdsLock (c : Caller) : Bool :=
  c.pc = CallerPc.locked || c.pc = CallerPc.doRefresh || c.pc = CallerPc.refreshed

/-- Lock-ownership invariant: a caller inside the critical section is the
recorded holder of the lock. -/
def RefreshInv (s : RefreshSystem) : Prop :=
  (holdsLock s.a = true → s.lock = some false) ∧ (holdsLock s.b = true → s.lock = some true)

/-! ## Concrete instances used to evaluate the embedded code -/

/-- A concrete encryption service (key `'k'`). -/
def demoEnc : EncryptionService := { key := 'k' }

/-- Empty task store with the default TTL of 1 hour. -/
def emptyTaskStore : TaskStore := { tasks := [], ttl_hours := 1 }

/-- Trace for the task state machine: create a task at time 0. -/
def c2S1 : TaskStore := (emptyTaskStore.create_task "t1" "m" none none 0).1

/-- ... mark it running at time 10 ... -/
def c2S2 : TaskStore :=
  ((c2S1.update_task "t1" { status := some TaskStatus.running } 10).map Prod.fst).toOption.getD emptyTaskStore

/-- ... complete it at time 20 ... -/
def c2S3 : TaskStore :=
  ((c2S2.update_task "t1" { status := some TaskStatus.completed } 20).map Prod.fst).toOption.getD emptyTaskStore

/-- ... and then request status `pending` again at time 30. -/
def c2S4 : TaskStore :=
  ((c2S3.update_task "t1" { status := some TaskStatus.pending } 30).map Prod.fst).toOption.getD emptyTaskStore

/-- Completion time `T` of the cleanup scenario. -/
def c6T : Time := 10000

/-- Cleanup scenario: task created at time 5000 ... -/
def c6S1 : TaskStore := (emptyTaskStore.create_task "job1" "job" none none 5000).1

/-- ... and completed at time `T`, which pushes `expires_at` to `T` + 1 hour. -/
def c6S2 : TaskStore :=
  ((c6S1.update_task "job1" { status := some TaskStatus.completed } c6T).map Prod.fst).toOption.getD emptyTaskStore

/-- A task store holding one pending task, for exercising the executor. -/
def c7Store : TaskStore := (emptyTaskStore.create_task "t7" "hello" none none 0).1

/-- OAuth service state holding one state token created at time 0. -/
def c3Svc : GitServiceState :=
  { oauth_states :=
      [("s1", { provider := GitProvider.github, instance_url := none,
                redirect_uri := "https://app/cb", created_at := 0 })]
    connections := []
    enc := demoEnc }

/-- A successful token-exchange response. -/
def c3Tok : TokenResponse :=
  { status_code := 200, access_token := some "tok", refresh_token := none, expires_in := none }

/-- A successful user-info response. -/
def c3User : UserResponse :=
  { status_code := 200, login := some "alice", username := none, email := none }

/-- A token-exchange response rejected by the provider. -/
def c8TokFail : TokenResponse :=
  { status_code := 400, access_token := none, refresh_token := none, expires_in := none }

/-- A user-info probe that fails after a successful token exchange. -/
def c10UserFail : UserResponse :=
  { status_code := 500, login := none, username := none, email := none }

/-- A stored connection whose token expired at time 1000 and which has no
refresh token; its access token decrypts to `"staletoken"`. -/
def c1Conn : GitConnectionDB :=
  { id := "c1", provider := GitProvider.github, instance_url := none
    username := some "alice", email := none
    access_token_encrypted := fernetEncrypt 'k' 'i' "staletoken"
    refresh_token_encrypted := none
    token_expires_at := some 1000
    scopes := ["repo", "user:email"]
    connected_at := 0, last_used_at := none, is_active := true }

/-- Service state holding only `c1Conn`. -/
def c1Svc : GitServiceState :=
  { oauth_states := [], connections := [("c1", c1Conn)], enc := demoEnc }

/-- A provider refresh environment whose refresh would succeed. -/
def c1Env : RefreshEnv :=
  { resp := { status_code := 200, access_token := some "newtok",
              refresh_token := none, expires_in := some 7200 }
    iv₁ := 'p', iv₂ := 'q' }

/-- Like `c1Conn` but with a refresh token stored. -/
def c4Conn : GitConnectionDB :=
  { c1Conn with id := "c4", refresh_token_encrypted := some (fernetEncrypt 'k' 'r' "refreshtok") }

/-- Service state holding only `c4Conn`. -/
def c4Svc : GitServiceState :=
  { oauth_states := [], connections := [("c4", c4Conn)], enc := demoEnc }

/-- A provider refresh environment whose refresh fails with HTTP 500. -/
def c4EnvFail : RefreshEnv :=
  { resp := { status_code := 500, access_token := none, refresh_token := none, expires_in := none }
    iv₁ := 'p', iv₂ := 'q' }

/-- Service state with no connections at all. -/
def emptyGitSvc : GitServiceState := { oauth_states := [], connections := [], enc := demoEnc }

/-- Interleaving: caller A runs its whole refresh path up to (and
including) releasing the lock but not yet committing; then caller B runs
its check, acquires the freed lock, re-reads the still-uncommitted row
and refreshes again. -/
def c9Sched : List Bool := [false, false, false, false, false, true, true, true, true]

/-- The lock-ownership invariant is preserved by every scheduler step. -/
theorem refreshInv_step (nowA nowB newExp : Time) (i : Bool) (s : RefreshSystem)
    (h : RefreshInv s) : RefreshInv (RefreshSystem.step nowA nowB newExp i s) := by
  obtain ⟨ha, hb⟩ := h
  rcases s with ⟨db, lock, ⟨apc, av, ad⟩, ⟨bpc, bv, bd⟩, calls⟩
  simp only [RefreshInv, holdsLock] at ha hb ⊢
  cases i <;> cases apc <;> cases bpc <;>
    simp_all [RefreshSystem.step, stepOne] <;>
    (first
      | rfl
      | (split <;> simp_all))

/-- The lock-ownership invariant holds after running any schedule from
any state satisfying it. -/
theorem refreshInv_run (nowA nowB newExp : Time) (sched : List Bool) (s : RefreshSystem)
    (h : RefreshInv s) : RefreshInv (runRefresh nowA nowB newExp sched s) := by
  induction sched generalizing s with
  | nil => exact h
  | cons i rest ih =>
      exact ih _ (refreshInv_step nowA nowB newExp i s h)

/-- Decryption is a left inverse of encryption under the same key, for
every plaintext (the empty string through the explicit exemption, any
other through the Fernet model). -/
theorem decrypt_encrypt_roundtrip (svc : EncryptionService) (iv : Char) (x : String) :
    svc.decrypt (svc.encrypt iv x) = Except.ok x := by
  by_cases hx : x = ""
  · subst hx
    simp [EncryptionService.encrypt, EncryptionService.decrypt]
  · have hne : fernetEncrypt svc.key iv x ≠ "" := by
      simp [fernetEncrypt, String.ext_iff]
    simp only [EncryptionService.encrypt, EncryptionService.decrypt, if_neg hx, if_neg hne]
    simp [fernetEncrypt, fernetDecrypt]

/-- Updating a present key makes lookup return the new value. -/
theorem assocFind_assocSet_self {α : Type} (k : String) (v : α) (l : List (String × α))
    (h : (assocFind k l).isSome = true) : assocFind k (assocSet k v l) = some v := by
  induction l with
  | nil => simp [assocFind] at h
  | cons p rest ih =>
      by_cases hp : p.1 = k
      · simp [assocFind, assocSet, hp]
      · simp [assocFind, assocSet, hp] at h ⊢
        exact ih h

/-- If every binding of key `k` fails the filter, lookup after filtering
reports absence. -/
theorem assocFind_filter_none {α : Type} (k : String) (l : List (String × α))
    (p : String × α → Bool) (h : ∀ v, (k, v) ∈ l → p (k, v) = false) :
    assocFind k (l.filter p) = none := by
  induction l with
  | nil => rfl
  | cons q rest ih =>
      have hrest : ∀ v, (k, v) ∈ rest → p (k, v) = false := by
        intro v hv
        exact h v (List.mem_cons_of_mem _ hv)
      by_cases hq : p q = true
      · rw [List.filter_cons_of_pos hq]
        by_cases hk : q.1 = k
        · exfalso
          have hqe : (k, q.2) = q := by rw [← hk]
          have hfalse := h q.2 (by rw [hqe]; exact List.mem_cons_self q rest)
          rw [hqe, hq] at hfalse
          cases hfalse
        · simp only [assocFind, hk, if_false]
          exact ih hrest
      · rw [List.filter_cons_of_neg hq]
        exact ih hrest

/-- C2 (counterexample): `update_task` performs no transition validation.
A task taken through `create` → running → completed by the store's own
API is moved back to `pending` by a further `update_task` call: the
stored status really was terminal (`completed`) and the next update
regresses it, contradicting the claim that no update moves a task out of
a terminal state. -/
theorem C2_counterexample :
    (assocFind "t1" c2S3.tasks).map TaskInfo.status = some TaskStatus.completed ∧
    (assocFind "t1" c2S4.tasks).map TaskInfo.status = some TaskStatus.pending := by
  constructor
  · rfl
  · rfl

/-- C2 (amended): `update_task` applies whatever status the caller
passes, without any transition check: when the task exists, the update
succeeds and the stored status becomes exactly the requested one
(monotonicity is a discipline of the executor, the store does not
enforce it). -/
theorem C2_update_applies_any_status (store : TaskStore) (task_id : String)
    (u : TaskUpdate) (now : Time) (t : TaskInfo) (s : TaskStatus)
    (h : assocFind task_id store.tasks = some t) (hs : u.status = some s) :
    ∃ store' t', store.update_task task_id u now = Except.ok (store', t') ∧
      t'.status = s ∧ assocFind task_id store'.tasks = some t' := by
  refine ⟨{ store with tasks := assocSet task_id (applyTaskUpdate t u now store.ttl_hours) store.tasks },
    applyTaskUpdate t u now store.ttl_hours, ?_, ?_, ?_⟩
  · simp only [TaskStore.update_task, h]
  · simp [applyTaskUpdate, hs]
  · exact assocFind_assocSet_self task_id _ store.tasks (by simp [h])

/-- C2 witness: the amended theorem applied to the concrete trace,
moving the completed task of `c2S3` back to `pending`. -/
theorem C2_update_applies_any_status_witness :
    ∃ store' t', c2S3.update_task "t1" { status := some TaskStatus.pending } 30 =
        Except.ok (store', t') ∧
      t'.status = TaskStatus.pending ∧ assocFind "t1" store'.tasks = some t' :=
  C2_update_applies_any_status c2S3 "t1" { status := some TaskStatus.pending } 30
    ((assocFind "t1" c2S3.tasks).get (by decide)) TaskStatus.pending (by decide) rfl

/-- C6: `cleanup_expired` removes exactly the terminal tasks whose
`expires_at` is strictly before `now` (a pending or running task is kept
whatever its `expires_at`); and in the concrete scenario, a task
completed at `T` with TTL 1 hour is removed by a cleanup at `T` + 61
minutes but kept by a cleanup at `T` + 30 minutes. -/
theorem C6_cleanup_exact :
    (∀ (store : TaskStore) (now : Time) (id : String) (t : TaskInfo),
      (id, t) ∈ (store.cleanup_expired now).1.tasks ↔
        (id, t) ∈ store.tasks ∧ ¬(isTerminal t.status = true ∧ t.expires_at < now)) ∧
    (assocFind "job1" c6S2.tasks).map TaskInfo.status = some TaskStatus.completed ∧
    (assocFind "job1" c6S2.tasks).map TaskInfo.expires_at = some (c6T + 3600) ∧
    (c6S2.cleanup_expired (c6T + 3660)).1.tasks = [] ∧
    (c6S2.cleanup_expired (c6T + 1800)).1.tasks = c6S2.tasks := by
  refine ⟨?_, by decide, by decide, by decide, by decide⟩
  intro store now id t
  simp [TaskStore.cleanup_expired, List.mem_filter, not_and]
  intro _
  cases ht : isTerminal t.status <;> simp [ht]

/-- C6 witness: the characterization applied to the concrete scenario
shows the running variant of the task survives an arbitrarily late
cleanup. -/
theorem C6_cleanup_exact_witness :
    ("t7", (assocFind "t7" c7Store.tasks).get (by decide)) ∈
      (c7Store.cleanup_expired 999999999).1.tasks :=
  (C6_cleanup_exact.1 c7Store 999999999 "t7" _).mpr (by decide)

/-- C7: when the CLI-wrapper collaborator raises (outcome
`Except.error msg`) on an existing task, `execute_task` swallows the
exception and records it: it returns normally and the task ends
`failed` with `error = msg`. -/
theorem C7_executor_contains_failure (store : TaskStore) (task_id msg : String)
    (now₁ now₂ : Time) (t : TaskInfo) (h : assocFind task_id store.tasks = some t) :
    ∃ store' t',
      TaskExecutor.execute_task store task_id (Except.error msg) now₁ now₂ = Except.ok store' ∧
      assocFind task_id store'.tasks = some t' ∧
      t'.status = TaskStatus.failed ∧ t'.error = some msg := by
  have h1 : (assocFind task_id store.tasks).isSome = true := by simp [h]
  have h2 := assocFind_assocSet_self task_id
    (applyTaskUpdate t { status := some TaskStatus.running } now₁ store.ttl_hours) store.tasks h1
  set t₁ := applyTaskUpdate t { status := some TaskStatus.running } now₁ store.ttl_hours with ht₁
  set store₁ : TaskStore := { store with tasks := assocSet task_id t₁ store.tasks } with hstore₁
  set t₂ := applyTaskUpdate t₁ { status := some TaskStatus.failed, error := some msg } now₂
    store₁.ttl_hours with ht₂
  refine ⟨{ store₁ with tasks := assocSet task_id t₂ store₁.tasks }, t₂, ?_, ?_, ?_, ?_⟩
  · simp only [TaskExecutor.execute_task, TaskStore.get_task, TaskStore.update_task, h, h2]
    rfl
  · exact assocFind_assocSet_self task_id _ _ (by simp [hstore₁, h2])
  · simp [ht₂, applyTaskUpdate]
  · simp [ht₂, applyTaskUpdate]

/-- C7 witness: the concrete pending task of `c7Store` ends `failed` with
the collaborator's message when the collaborator raises. -/
theorem C7_executor_contains_failure_witness :
    ∃ store' t',
      TaskExecutor.execute_task c7Store "t7" (Except.error "boom") 5 6 = Except.ok store' ∧
      assocFind "t7" store'.tasks = some t' ∧
      t'.status = TaskStatus.failed ∧ t'.error = some "boom" :=
  C7_executor_contains_failure c7Store "t7" "boom" 5 6
    ((assocFind "t7" c7Store.tasks).get (by decide)) rfl

/-- C5 (counterexample): `encrypt(decrypt(x)) == x` fails at the
non-empty string `"a"`: decryption rejects it (`InvalidToken`), so no
plaintext exists whose re-encryption could reproduce it.  Moreover even
on a well-formed token the composition is not the identity, because
encryption is randomized: re-encrypting under a fresh IV yields a
different ciphertext. -/
theorem C5_counterexample :
    demoEnc.decrypt "a" = Except.error "InvalidToken" ∧
    (¬ ∃ iv p, demoEnc.decrypt "a" = Except.ok p ∧ demoEnc.encrypt iv p = "a") ∧
    demoEnc.decrypt (demoEnc.encrypt 'i' "x") = Except.ok "x" ∧
    demoEnc.encrypt 'j' "x" ≠ demoEnc.encrypt 'i' "x" := by
  refine ⟨rfl, ?_, rfl, by decide⟩
  rintro ⟨iv, p, hp, -⟩
  rw [show demoEnc.decrypt "a" = Except.error "InvalidToken" from rfl] at hp
  cases hp

/-- C5 (amended): `decrypt(encrypt(x)) == x` holds for every string —
non-empty strings round-trip through the cipher and the empty string is
exempted unchanged on both paths; the other composition
`encrypt(decrypt(x)) == x` does not hold in general (see the
counterexample), since decryption is partial and encryption randomized. -/
theorem C5_vault_roundtrip (svc : EncryptionService) (iv : Char) (x : String) :
    svc.decrypt (svc.encrypt iv x) = Except.ok x ∧
    svc.encrypt iv "" = "" ∧ svc.decrypt "" = Except.ok "" :=
  ⟨decrypt_encrypt_roundtrip svc iv x, rfl, rfl⟩

/-- C3 (counterexample): `handle_oauth_callback` checks only membership
of the state in the cache, never its age.  A state created at time 0 and
never swept is accepted by a callback at time 960 s (16 minutes later,
past the 15-minute window): the callback succeeds instead of failing
`NotFound`. -/
theorem C3_counterexample :
    (960 : Time) - (0 : Time) > OAUTH_STATE_EXPIRY ∧
    (handle_oauth_callback c3Svc GitProvider.github "code" "s1" "verifier" "https://app/cb"
      c3Tok c3User "conn1" 'i' 'j' 960).2.isOk = true := by
  decide

/-- C3 (amended): expiry of a state is enforced only by the sweep
(invoked from `initiate_oauth`), not by the callback itself: once
`_cleanup_expired_oauth_states` has run at a time more than 15 minutes
past the creation of every binding of the state token, the token is gone
and a callback with it fails `NotFound`. -/
theorem C3_swept_states_rejected (svc : GitServiceState) (provider : GitProvider)
    (code state code_verifier redirect_uri : String) (tokenResp : TokenResponse)
    (userResp : UserResponse) (cid : String) (iv₁ iv₂ : Char) (now : Time)
    (hpkce : validPkce code_verifier = true)
    (hexp : ∀ d, (state, d) ∈ svc.oauth_states → now - d.created_at > OAUTH_STATE_EXPIRY) :
    (handle_oauth_callback (cleanup_expired_oauth_states svc now) provider code state
      code_verifier redirect_uri tokenResp userResp cid iv₁ iv₂ now).2 =
      Except.error (AppError.notFound ("OAuth state not found: " ++ state)) := by
  have hnone : assocFind state (cleanup_expired_oauth_states svc now).oauth_states = none := by
    apply assocFind_filter_none
    intro v hv
    simp [hexp v hv]
  simp [handle_oauth_callback, hpkce, hnone]

/-- C3 witness: the amended theorem applied to the concrete 16-minute-old
state of `c3Svc`, after the sweep runs at time 960. -/
theorem C3_swept_states_rejected_witness :
    (handle_oauth_callback (cleanup_expired_oauth_states c3Svc 960) GitProvider.github "code" "s1"
      "verifier" "https://app/cb" c3Tok c3User "conn1" 'i' 'j' 960).2 =
      Except.error (AppError.notFound ("OAuth state not found: " ++ "s1")) :=
  C3_swept_states_rejected c3Svc GitProvider.github "code" "s1" "verifier" "https://app/cb"
    c3Tok c3User "conn1" 'i' 'j' 960 (by decide)
    (by
      intro d hd
      simp only [c3Svc, List.mem_singleton, Prod.mk.injEq] at hd
      rw [hd.2]
      decide)

/-- C8: on every failure path of `handle_oauth_callback` — invalid
verifier, unknown state, provider or redirect-URI mismatch, failed token
exchange, missing access token, or failed user-info fetch — the
connections table is left untouched; a connection row is inserted exactly
when the whole callback succeeds. -/
theorem C8_persist_only_on_success (svc : GitServiceState) (provider : GitProvider)
    (code state code_verifier redirect_uri : String) (tokenResp : TokenResponse)
    (userResp : UserResponse) (cid : String) (iv₁ iv₂ : Char) (now : Time) :
    (∀ e, (handle_oauth_callback svc provider code state code_verifier redirect_uri
        tokenResp userResp cid iv₁ iv₂ now).2 = Except.error e →
      (handle_oauth_callback svc provider code state code_verifier redirect_uri
        tokenResp userResp cid iv₁ iv₂ now).1.connections = svc.connections) ∧
    (∀ c, (handle_oauth_callback svc provider code state code_verifier redirect_uri
        tokenResp userResp cid iv₁ iv₂ now).2 = Except.ok c →
      (handle_oauth_callback svc provider code state code_verifier redirect_uri
        tokenResp userResp cid iv₁ iv₂ now).1.connections = svc.connections ++ [(cid, c)]) := by
  simp only [handle_oauth_callback]
  repeat' split
  all_goals constructor
  all_goals intro x hx
  all_goals simp_all

/-- C8 witness: a provider-mismatch callback (stored provider `github`,
callback provider `gitlab`) leaves the connections table unchanged. -/
theorem C8_persist_only_on_success_witness :
    (handle_oauth_callback c3Svc GitProvider.gitlab "code" "s1" "verifier" "https://app/cb"
      c3Tok c3User "conn1" 'i' 'j' 100).1.connections = c3Svc.connections :=
  (C8_persist_only_on_success c3Svc GitProvider.gitlab "code" "s1" "verifier" "https://app/cb"
    c3Tok c3User "conn1" 'i' 'j' 100).1 (AppError.badRequest "Provider mismatch") (by rfl)

/-- C10: `handle_oauth_callback` deletes the OAuth state entry only on
full success: every failing run leaves the state cache exactly as it
was (so the same state token can be retried), and a successful run
removes exactly the used token. -/
theorem C10_state_deleted_only_on_success (svc : GitServiceState) (provider : GitProvider)
    (code state code_verifier redirect_uri : String) (tokenResp : TokenResponse)
    (userResp : UserResponse) (cid : String) (iv₁ iv₂ : Char) (now : Time) :
    (∀ e, (handle_oauth_callback svc provider code state code_verifier redirect_uri
        tokenResp userResp cid iv₁ iv₂ now).2 = Except.error e →
      (handle_oauth_callback svc provider code state code_verifier redirect_uri
        tokenResp userResp cid iv₁ iv₂ now).1.oauth_states = svc.oauth_states) ∧
    ((handle_oauth_callback svc provider code state code_verifier redirect_uri
        tokenResp userResp cid iv₁ iv₂ now).2.isOk = true →
      (handle_oauth_callback svc provider code state code_verifier redirect_uri
        tokenResp userResp cid iv₁ iv₂ now).1.oauth_states =
        svc.oauth_states.filter (fun p => p.1 ≠ state)) := by
  simp only [handle_oauth_callback]
  repeat' split
  all_goals constructor
  all_goals first
    | (intro x hx; simp_all [Except.isOk, Except.toBool])
    | (intro hx; simp_all [Except.isOk, Except.toBool])

/-- C10 witness: a callback that fails at the user-info fetch (HTTP 500)
keeps the pre-existing state entry in the cache unchanged. -/
theorem C10_state_deleted_only_on_success_witness :
    (handle_oauth_callback c3Svc GitProvider.github "code" "s1" "verifier" "https://app/cb"
      c3Tok c10UserFail "conn1" 'i' 'j' 100).1.oauth_states = c3Svc.oauth_states :=
  (C10_state_deleted_only_on_success c3Svc GitProvider.github "code" "s1" "verifier"
    "https://app/cb" c3Tok c10UserFail "conn1" 'i' 'j' 100).1
    (AppError.badRequest "Failed to fetch user info") (by rfl)

/-- C1 (counterexample): a buffer-expired connection *without* a stored
refresh token slips through the `needs_refresh and refresh_token_encrypted`
guard: `get_decrypted_token` returns the previously stored, buffer-expired
access token (`"staletoken"`) instead of refreshing or raising. -/
theorem C1_counterexample :
    needsRefresh c1Conn.token_expires_at 2000 = true ∧
    c1Conn.refresh_token_encrypted = none ∧
    (get_decrypted_token c1Svc "c1" c1Env 2000).2 = Except.ok "staletoken" := by
  refine ⟨by decide, rfl, rfl⟩

/-- C1 (amended): for a stored connection that is past its
buffer-adjusted expiry *and holds a refresh token*, `get_decrypted_token`
either fails with an explicit error or returns exactly the access token
of the provider's (necessarily successful, HTTP 200) refresh response —
never the stale stored token. -/
theorem C1_refresh_or_error (svc : GitServiceState) (cid : String) (conn : GitConnectionDB)
    (env : RefreshEnv) (now e : Time) (rt : String)
    (hfind : assocFind cid svc.connections = some conn)
    (hexp : conn.token_expires_at = some e)
    (hneeds : now ≥ e - TOKEN_REFRESH_BUFFER)
    (hrt : conn.refresh_token_encrypted = some rt) :
    (∃ err, (get_decrypted_token svc cid env now).2 = Except.error err) ∨
    ((get_decrypted_token svc cid env now).2 = Except.ok (env.resp.access_token.getD "") ∧
      env.resp.status_code = 200) := by
  have hneedsb : needsRefresh conn.token_expires_at now = true := by
    simp only [needsRefresh, hexp, decide_eq_true_eq]
    exact hneeds
  rcases hr : refresh_token_fn svc.enc env conn now with err | conn'
  · left
    exact ⟨AppError.badRequest
      "Failed to refresh access token for Git connection; please re-authenticate and try again.",
      by simp [get_decrypted_token, hfind, hneedsb, hrt, hr]⟩
  · have hr0 := hr
    simp only [refresh_token_fn, hrt] at hr
    rcases hd : svc.enc.decrypt rt with derr | dok
    · rw [hd] at hr
      cases hr
    · rw [hd] at hr
      split_ifs at hr with h1 h2
      cases hr
      case neg.refl =>
        right
        refine ⟨?_, not_ne_iff.mp h1⟩
        simp [get_decrypted_token, hfind, hneedsb, hrt, hr0, decrypt_encrypt_roundtrip]

/-- C1 witness: the amended theorem at the concrete expired connection
`c4Conn` (which stores a refresh token) under a succeeding provider
response: the result is exactly the refreshed token. -/
theorem C1_refresh_or_error_witness :
    (∃ err, (get_decrypted_token c4Svc "c4" c1Env 2000).2 = Except.error err) ∨
    ((get_decrypted_token c4Svc "c4" c1Env 2000).2 =
        Except.ok (c1Env.resp.access_token.getD "") ∧
      c1Env.resp.status_code = 200) :=
  C1_refresh_or_error c4Svc "c4" c4Conn c1Env 2000 1000 (fernetEncrypt 'k' 'r' "refreshtok")
    (by decide) rfl (by decide) rfl

/-- C4 (counterexample): `check_connection_status` on an unknown
connection id raises `NotFoundException` instead of returning an
`is_valid = false` status result. -/
theorem C4_counterexample :
    (check_connection_status emptyGitSvc "missing" c1Env none 0).2 =
      Except.error (AppError.notFound ("Connection not found: " ++ "missing")) := by
  rfl

/-- C4 (amended): the conversion to an `is_valid = false` result covers
only failures *inside* `get_decrypted_token` (e.g. a failing refresh);
an absent connection is reported by raising `NotFoundException` from
`check_connection_status` itself. -/
theorem C4_status_reports_invalid (svc : GitServiceState) (cid : String) (env : RefreshEnv)
    (userResp : Option Nat) (now : Time) :
    (assocFind cid svc.connections = none →
      (check_connection_status svc cid env userResp now).2 =
        Except.error (AppError.notFound ("Connection not found: " ++ cid))) ∧
    (∀ conn err, assocFind cid svc.connections = some conn →
      (get_decrypted_token svc cid env now).2 = Except.error err →
      (check_connection_status svc cid env userResp now).2 =
        Except.ok { connection_id := cid, is_valid := false, username := conn.username,
                    scopes := conn.scopes, last_checked := now }) := by
  constructor
  · intro h
    simp [check_connection_status, h]
  · intro conn err h hg
    rcases hgd : get_decrypted_token svc cid env now with ⟨svc', res⟩
    rw [hgd] at hg
    simp only at hg
    subst hg
    simp [check_connection_status, h, hgd]

/-- C4 witness: the amended theorem at the concrete connection `c4Conn`
whose refresh fails with HTTP 500: the status result is returned (not
raised) with `is_valid = false`. -/
theorem C4_status_reports_invalid_witness :
    (check_connection_status c4Svc "c4" c4EnvFail (some 200) 2000).2 =
      Except.ok { connection_id := "c4", is_valid := false, username := c4Conn.username,
                  scopes := c4Conn.scopes, last_checked := 2000 } :=
  (C4_status_reports_invalid c4Svc "c4" c4EnvFail (some 200) 2000).2 c4Conn
    (AppError.badRequest
      "Failed to refresh access token for Git connection; please re-authenticate and try again.")
    (by decide) (by rfl)

/-- C9 (counterexample): two concurrent callers can issue two provider
refresh calls in total.  Caller A refreshes and releases the lock at the
end of the lock block, but its session commit (which publishes the new
expiry) happens only afterwards, at session exit; caller B acquires the
freed lock, re-reads the still-uncommitted row, sees the old expiry,
and refreshes again.  Both callers genuinely needed a refresh at their
initial check. -/
theorem C9_counterexample :
    needsRefresh (some 1000) 2000 = true ∧
    (runRefresh 2000 2000 100000 c9Sched (initRefresh 1000)).refreshCalls = 2 := by
  decide

/-- C9 (amended): the per-connection lock does serialize refreshes — in
every interleaving, at no point are both callers inside the
lock-protected critical section where the provider refresh call is
issued (at most one refresh in flight per connection); redundant
*sequential* refreshes are only avoided when the first caller's commit
is visible at the second caller's re-check. -/
theorem C9_refresh_mutual_exclusion (nowA nowB newExp e0 : Time) (sched : List Bool) :
    (holdsLock (runRefresh nowA nowB newExp sched (initRefresh e0)).a &&
      holdsLock (runRefresh nowA nowB newExp sched (initRefresh e0)).b) = false := by
  have hinit : RefreshInv (initRefresh e0) := by
    constructor
    · intro h
      simp [initRefresh, holdsLock] at h
    · intro h
      simp [initRefresh, holdsLock] at h
  obtain ⟨ha, hb⟩ := refreshInv_run nowA nowB newExp sched (initRefresh e0) hinit
  cases hA : holdsLock (runRefresh nowA nowB newExp sched (initRefresh e0)).a
  · simp
  · cases hB : holdsLock (runRefresh nowA nowB newExp sched (initRefresh e0)).b
    · simp
    · have h1 := ha hA
      have h2 := hb hB
      rw [h1] at h2
      cases h2

end PocketClaude
